import Mathlib

/-!
Shallow embedding of the vkfft-rs core (src/config.rs, src/app.rs,
src/context.rs) and proofs about it.

Opaque Vulkan handles (PhysicalDevice, Device, Queue, CommandPool, Fence,
CommandBuffer and the raw ash handles stored in the guard records) are
modelled as natural numbers; an Arc of Buffer is modelled as a Buffer
record carrying its raw handle and its byte size.  Raw pointer fields of
the native records, whose only observable content here is whether they
were set to point at the sibling scalar copy or left null by the zeroed
initialisation, are modelled as booleans.  Calls across the C ABI
(initializeVkFFT, VkFFTAppend, deleteVkFFT, the three queue submission
entry points and the fence wait and reset calls) are modelled as emitted
events; their status codes are inputs of the model.
-/

namespace VkFFT

/-- Model of an Arc of vulkano Buffer: raw handle plus byte size. -/
structure Buffer where
  handle : Nat
  size : Nat
deriving DecidableEq, Repr

/-- Precision enum from src/config.rs. -/
inductive Precision
  | Single
  | Double
  | Half
  | HalfMemory
deriving DecidableEq, Repr

/-- BuildError enum from src/config.rs. -/
inductive BuildError
  | NoPhysicalDevice
  | NoDevice
  | NoQueue
  | NoFence
  | NoCommandPool
  | NoBuffer
deriving DecidableEq, Repr

/-- ConfigBuilder struct from src/config.rs.  Handles are naturals. -/
structure ConfigBuilder where
  fft_dim : Nat
  size : List Nat
  physical_device : Option Nat
  device : Option Nat
  queue : Option Nat
  fence : Option Nat
  command_pool : Option Nat
  buffer : Option Buffer
  input_buffer : Option Buffer
  output_buffer : Option Buffer
  temp_buffer : Option Buffer
  kernel : Option Buffer
  normalize : Bool
  zero_padding : List Bool
  zeropad_left : List Nat
  zeropad_right : List Nat
  kernel_convolution : Bool
  convolution : Bool
  r2c : Bool
  dct : Option Nat
  dst : Option Nat
  coordinate_features : Nat
  disable_reorder_four_step : Bool
  batch_count : Option Nat
  precision : Precision
  use_lut : Bool
  symmetric_kernel : Bool
  input_formatted : Option Bool
  inverse_return_to_input : Option Bool
  output_formatted : Option Bool
  matrix_convolution : Option Nat
deriving DecidableEq, Repr

/-- ConfigBuilder::new. -/
def ConfigBuilder.new : ConfigBuilder where
  fft_dim := 1
  size := [1, 1, 1, 0]
  physical_device := none
  device := none
  queue := none
  fence := none
  command_pool := none
  normalize := false
  zero_padding := [false, false, false]
  zeropad_left := [0, 0, 0, 0]
  zeropad_right := [0, 0, 0, 0]
  kernel_convolution := false
  r2c := false
  dct := none
  dst := none
  coordinate_features := 1
  disable_reorder_four_step := false
  buffer := none
  temp_buffer := none
  input_buffer := none
  output_buffer := none
  batch_count := none
  precision := .Single
  convolution := false
  use_lut := false
  symmetric_kernel := false
  input_formatted := none
  output_formatted := none
  inverse_return_to_input := none
  kernel := none
  matrix_convolution := none

/-- ConfigBuilder::dim (the source asserts the slice length is at most 3
and copies the entries present into the first size slots). -/
def ConfigBuilder.dim (b : ConfigBuilder) (d : List Nat) : ConfigBuilder :=
  let b := { b with fft_dim := d.length }
  let b := if h : 0 < d.length then { b with size := b.size.set 0 (d.get ⟨0, h⟩) } else b
  let b := if h : 1 < d.length then { b with size := b.size.set 1 (d.get ⟨1, h⟩) } else b
  if h : 2 < d.length then { b with size := b.size.set 2 (d.get ⟨2, h⟩) } else b

/-- ConfigBuilder::physical_device setter. -/
def ConfigBuilder.set_physical_device (b : ConfigBuilder) (v : Nat) : ConfigBuilder :=
  { b with physical_device := some v }

/-- ConfigBuilder::device setter. -/
def ConfigBuilder.set_device (b : ConfigBuilder) (v : Nat) : ConfigBuilder :=
  { b with device := some v }

/-- ConfigBuilder::queue setter. -/
def ConfigBuilder.set_queue (b : ConfigBuilder) (v : Nat) : ConfigBuilder :=
  { b with queue := some v }

/-- ConfigBuilder::command_pool setter. -/
def ConfigBuilder.set_command_pool (b : ConfigBuilder) (v : Nat) : ConfigBuilder :=
  { b with command_pool := some v }

/-- ConfigBuilder::fence setter. -/
def ConfigBuilder.set_fence (b : ConfigBuilder) (v : Nat) : ConfigBuilder :=
  { b with fence := some v }

/-- ConfigBuilder::buffer setter. -/
def ConfigBuilder.set_buffer (b : ConfigBuilder) (v : Buffer) : ConfigBuilder :=
  { b with buffer := some v }

/-- ConfigBuilder::temp_buffer setter. -/
def ConfigBuilder.set_temp_buffer (b : ConfigBuilder) (v : Buffer) : ConfigBuilder :=
  { b with temp_buffer := some v }

/-- ConfigBuilder::input_buffer setter. -/
def ConfigBuilder.set_input_buffer (b : ConfigBuilder) (v : Buffer) : ConfigBuilder :=
  { b with input_buffer := some v }

/-- ConfigBuilder::output_buffer setter. -/
def ConfigBuilder.set_output_buffer (b : ConfigBuilder) (v : Buffer) : ConfigBuilder :=
  { b with output_buffer := some v }

/-- ConfigBuilder::kernel setter. -/
def ConfigBuilder.set_kernel (b : ConfigBuilder) (v : Buffer) : ConfigBuilder :=
  { b with kernel := some v }

/-- ConfigBuilder::normalize setter. -/
def ConfigBuilder.set_normalize (b : ConfigBuilder) : ConfigBuilder :=
  { b with normalize := true }

/-- ConfigBuilder::kernel_convolution setter. -/
def ConfigBuilder.set_kernel_convolution (b : ConfigBuilder) : ConfigBuilder :=
  { b with kernel_convolution := true }

/-- ConfigBuilder::symmetric_kernel setter. -/
def ConfigBuilder.set_symmetric_kernel (b : ConfigBuilder) : ConfigBuilder :=
  { b with symmetric_kernel := true }

/-- ConfigBuilder::convolution setter. -/
def ConfigBuilder.set_convolution (b : ConfigBuilder) : ConfigBuilder :=
  { b with convolution := true }

/-- ConfigBuilder::r2c setter. -/
def ConfigBuilder.set_r2c (b : ConfigBuilder) : ConfigBuilder :=
  { b with r2c := true }

/-- ConfigBuilder::dct setter: stores the type in the dct field. -/
def ConfigBuilder.set_dct (b : ConfigBuilder) (v : Nat) : ConfigBuilder :=
  { b with dct := some v }

/-- ConfigBuilder::dst setter, translated exactly as written in the
source at src/config.rs lines 199 to 202: the body assigns the argument
to the dct field, not to the dst field. -/
def ConfigBuilder.set_dst (b : ConfigBuilder) (v : Nat) : ConfigBuilder :=
  { b with dct := some v }

/-- ConfigBuilder::use_lut setter. -/
def ConfigBuilder.set_use_lut (b : ConfigBuilder) : ConfigBuilder :=
  { b with use_lut := true }

/-- ConfigBuilder::coordinate_features setter. -/
def ConfigBuilder.set_coordinate_features (b : ConfigBuilder) (v : Nat) : ConfigBuilder :=
  { b with coordinate_features := v }

/-- ConfigBuilder::matrix_convolution setter. -/
def ConfigBuilder.set_matrix_convolution (b : ConfigBuilder) (v : Nat) : ConfigBuilder :=
  { b with matrix_convolution := some v }

/-- ConfigBuilder::disable_reorder_four_step setter. -/
def ConfigBuilder.set_disable_reorder_four_step (b : ConfigBuilder) : ConfigBuilder :=
  { b with disable_reorder_four_step := true }

/-- ConfigBuilder::zero_padding setter. -/
def ConfigBuilder.set_zero_padding (b : ConfigBuilder) (z : List Bool) : ConfigBuilder :=
  let b := if h : 0 < z.length then { b with zero_padding := b.zero_padding.set 0 (z.get ⟨0, h⟩) } else b
  let b := if h : 1 < z.length then { b with zero_padding := b.zero_padding.set 1 (z.get ⟨1, h⟩) } else b
  if h : 2 < z.length then { b with zero_padding := b.zero_padding.set 2 (z.get ⟨2, h⟩) } else b

/-- ConfigBuilder::zeropad_left setter. -/
def ConfigBuilder.set_zeropad_left (b : ConfigBuilder) (z : List Nat) : ConfigBuilder :=
  let b := if h : 0 < z.length then { b with zeropad_left := b.zeropad_left.set 0 (z.get ⟨0, h⟩) } else b
  let b := if h : 1 < z.length then { b with zeropad_left := b.zeropad_left.set 1 (z.get ⟨1, h⟩) } else b
  if h : 2 < z.length then { b with zeropad_left := b.zeropad_left.set 2 (z.get ⟨2, h⟩) } else b

/-- ConfigBuilder::zeropad_right setter. -/
def ConfigBuilder.set_zeropad_right (b : ConfigBuilder) (z : List Nat) : ConfigBuilder :=
  let b := if h : 0 < z.length then { b with zeropad_right := b.zeropad_right.set 0 (z.get ⟨0, h⟩) } else b
  let b := if h : 1 < z.length then { b with zeropad_right := b.zeropad_right.set 1 (z.get ⟨1, h⟩) } else b
  if h : 2 < z.length then { b with zeropad_right := b.zeropad_right.set 2 (z.get ⟨2, h⟩) } else b

/-- ConfigBuilder::batch_count setter. -/
def ConfigBuilder.set_batch_count (b : ConfigBuilder) (v : Nat) : ConfigBuilder :=
  { b with batch_count := some v }

/-- ConfigBuilder::input_formatted setter. -/
def ConfigBuilder.set_input_formatted (b : ConfigBuilder) (v : Bool) : ConfigBuilder :=
  { b with input_formatted := some v }

/-- ConfigBuilder::inverse_return_to_input setter. -/
def ConfigBuilder.set_inverse_return_to_input (b : ConfigBuilder) : ConfigBuilder :=
  { b with inverse_return_to_input := some true }

/-- ConfigBuilder::output_formatted setter. -/
def ConfigBuilder.set_output_formatted (b : ConfigBuilder) (v : Bool) : ConfigBuilder :=
  { b with output_formatted := some v }

/-- Config struct from src/config.rs. -/
structure Config where
  fft_dim : Nat
  size : List Nat
  physical_device : Nat
  device : Nat
  queue : Nat
  fence : Nat
  command_pool : Nat
  buffer : Option Buffer
  input_buffer : Option Buffer
  output_buffer : Option Buffer
  temp_buffer : Option Buffer
  kernel : Option Buffer
  normalize : Bool
  zero_padding : List Bool
  zeropad_left : List Nat
  zeropad_right : List Nat
  kernel_convolution : Bool
  convolution : Bool
  r2c : Bool
  dct : Option Nat
  dst : Option Nat
  coordinate_features : Nat
  disable_reorder_four_step : Bool
  batch_count : Option Nat
  precision : Precision
  use_lut : Bool
  symmetric_kernel : Bool
  input_formatted : Option Bool
  inverse_return_to_input : Option Bool
  output_formatted : Option Bool
  matrix_convolution : Option Nat
deriving DecidableEq, Repr

/-- ConfigBuilder::build from src/config.rs lines 291 to 351: the five
mandatory handles are checked in declaration order and the first absent
one aborts the build; every remaining field is moved across verbatim. -/
def ConfigBuilder.build (b : ConfigBuilder) : Except BuildError Config :=
  match b.physical_device with
  | none => .error .NoPhysicalDevice
  | some physical_device =>
  match b.device with
  | none => .error .NoDevice
  | some device =>
  match b.queue with
  | none => .error .NoQueue
  | some queue =>
  match b.fence with
  | none => .error .NoFence
  | some fence =>
  match b.command_pool with
  | none => .error .NoCommandPool
  | some command_pool =>
  .ok {
    fft_dim := b.fft_dim
    size := b.size
    physical_device := physical_device
    device := device
    queue := queue
    fence := fence
    command_pool := command_pool
    normalize := b.normalize
    zero_padding := b.zero_padding
    zeropad_left := b.zeropad_left
    zeropad_right := b.zeropad_right
    kernel_convolution := b.kernel_convolution
    r2c := b.r2c
    dct := b.dct
    dst := b.dst
    coordinate_features := b.coordinate_features
    disable_reorder_four_step := b.disable_reorder_four_step
    buffer := b.buffer
    batch_count := b.batch_count
    precision := b.precision
    convolution := b.convolution
    use_lut := b.use_lut
    symmetric_kernel := b.symmetric_kernel
    input_formatted := b.input_formatted
    output_formatted := b.output_formatted
    kernel := b.kernel
    temp_buffer := b.temp_buffer
    input_buffer := b.input_buffer
    inverse_return_to_input := b.inverse_return_to_input
    output_buffer := b.output_buffer
    matrix_convolution := b.matrix_convolution
  }

/-- ConfigError enum from src/config.rs. -/
inductive ConfigError
  | InvalidConfig
deriving DecidableEq, Repr

/-- KeepAlive struct from src/config.rs: the clones held to keep the
resources alive for the lifetime of the guard. -/
structure KeepAlive where
  device : Nat
  queue : Nat
  command_pool : Nat
  buffer : Option Buffer
  input_buffer : Option Buffer
  output_buffer : Option Buffer
  temp_buffer : Option Buffer
  kernel : Option Buffer
deriving DecidableEq, Repr

/-- Model of the native VkFFTConfiguration record, restricted to the
fields src/config.rs writes.  Native pointer fields are booleans saying
whether as_sys aimed them at the sibling scalar copy (true) or left them
null from the zeroed initialisation (false); bool-to-integer native
flags are naturals. -/
structure VkFFTConfiguration where
  FFTdim : Nat := 0
  size : List Nat := [0, 0, 0, 0]
  physicalDevice : Bool := false
  device : Bool := false
  queue : Bool := false
  commandPool : Bool := false
  fence : Bool := false
  normalize : Nat := 0
  kernelSize : Bool := false
  kernel : Bool := false
  bufferSize : Bool := false
  buffer : Bool := false
  userTempBuffer : Nat := 0
  tempBufferSize : Bool := false
  tempBuffer : Bool := false
  inputBufferSize : Bool := false
  inputBuffer : Bool := false
  outputBufferSize : Bool := false
  outputBuffer : Bool := false
  performZeropadding : List Nat := [0, 0, 0]
  fft_zeropad_left : List Nat := [0, 0, 0, 0]
  fft_zeropad_right : List Nat := [0, 0, 0, 0]
  performConvolution : Nat := 0
  numberKernels : Nat := 0
  kernelConvolution : Nat := 0
  performR2C : Nat := 0
  performDCT : Nat := 0
  performDST : Nat := 0
  coordinateFeatures : Nat := 0
  disableReorderFourStep : Nat := 0
  symmetricKernel : Nat := 0
  isInputFormatted : Nat := 0
  inverseReturnToInputBuffer : Nat := 0
  isOutputFormatted : Nat := 0
  doublePrecision : Nat := 0
  halfPrecision : Nat := 0
  halfPrecisionMemoryOnly : Nat := 0
  numberBatches : Nat := 0
  matrixConvolution : Nat := 0
deriving DecidableEq, Repr

/-- Result of std mem zeroed on the native configuration record. -/
def VkFFTConfiguration.zeroed : VkFFTConfiguration := {}

/-- ConfigGuard struct from src/config.rs: the address-stable record
holding the native configuration, the scalar handle copies its pointer
fields reference, the stored buffer sizes, and the keep-alive set. -/
structure ConfigGuard where
  keep_alive : KeepAlive
  config : VkFFTConfiguration
  physical_device : Nat
  device : Nat
  queue : Nat
  command_pool : Nat
  fence : Nat
  buffer_size : Nat
  buffer : Option Nat
  input_buffer_size : Nat
  input_buffer : Option Nat
  output_buffer_size : Nat
  output_buffer : Option Nat
  temp_buffer_size : Nat
  temp_buffer : Option Nat
  kernel_size : Nat
  kernel : Option Nat
deriving DecidableEq, Repr

/-- Config::as_sys from src/config.rs lines 540 to 689, step for step:
build the keep-alive set and the guard with its scalar copies and sizes,
aim the native pointer fields at the sibling copies (a size pointer only
when the stored size is nonzero, a buffer pointer only when that buffer
is present), copy the scalar options across, then apply the precision
cross-field rules: half-memory-only precision rejects an explicit
formatted-false option with InvalidConfig and otherwise forces both
formatted flags on. -/
def Config.as_sys (c : Config) : Except ConfigError ConfigGuard :=
  let keep_alive : KeepAlive := {
    device := c.device
    buffer := c.buffer
    input_buffer := c.input_buffer
    output_buffer := c.output_buffer
    kernel := c.kernel
    command_pool := c.command_pool
    queue := c.queue
    temp_buffer := c.temp_buffer
  }
  let res : ConfigGuard := {
    keep_alive := keep_alive
    config := VkFFTConfiguration.zeroed
    physical_device := c.physical_device
    device := c.device
    queue := c.queue
    command_pool := c.command_pool
    fence := c.fence
    buffer_size := (c.buffer.map Buffer.size).getD 0
    temp_buffer_size := (c.temp_buffer.map Buffer.size).getD 0
    input_buffer_size := (c.input_buffer.map Buffer.size).getD 0
    output_buffer_size := (c.output_buffer.map Buffer.size).getD 0
    kernel_size := (c.kernel.map Buffer.size).getD 0
    buffer := c.buffer.map Buffer.handle
    temp_buffer := c.temp_buffer.map Buffer.handle
    input_buffer := c.input_buffer.map Buffer.handle
    output_buffer := c.output_buffer.map Buffer.handle
    kernel := c.kernel.map Buffer.handle
  }
  let cfg := { res.config with
    FFTdim := c.fft_dim
    size := c.size
    physicalDevice := true
    device := true
    queue := true
    commandPool := true
    fence := true
    normalize := c.normalize.toNat }
  let cfg := if res.kernel_size ≠ 0 then { cfg with kernelSize := true } else cfg
  let cfg := if res.kernel.isSome then { cfg with kernel := true } else cfg
  let cfg := if res.buffer_size ≠ 0 then { cfg with bufferSize := true } else cfg
  let cfg := if res.buffer.isSome then { cfg with buffer := true } else cfg
  let cfg := if res.temp_buffer_size ≠ 0 then
    { cfg with userTempBuffer := 1, tempBufferSize := true } else cfg
  let cfg := if res.temp_buffer.isSome then { cfg with tempBuffer := true } else cfg
  let cfg := if res.input_buffer_size ≠ 0 then { cfg with inputBufferSize := true } else cfg
  let cfg := if res.input_buffer.isSome then { cfg with inputBuffer := true } else cfg
  let cfg := if res.output_buffer_size ≠ 0 then { cfg with outputBufferSize := true } else cfg
  let cfg := if res.output_buffer.isSome then { cfg with outputBuffer := true } else cfg
  let cfg := { cfg with
    performZeropadding := c.zero_padding.map Bool.toNat
    fft_zeropad_left := c.zeropad_left
    fft_zeropad_right := c.zeropad_right
    performConvolution := c.convolution.toNat }
  let cfg := if c.convolution then { cfg with numberKernels := 1 } else cfg
  let cfg := { cfg with
    kernelConvolution := c.kernel_convolution.toNat
    performR2C := c.r2c.toNat
    performDCT := c.dct.getD 0
    performDST := c.dst.getD 0
    coordinateFeatures := c.coordinate_features
    disableReorderFourStep := c.disable_reorder_four_step.toNat
    symmetricKernel := c.symmetric_kernel.toNat }
  let cfg := match c.input_formatted with
    | some v => { cfg with isInputFormatted := v.toNat }
    | none => cfg
  let cfg := match c.inverse_return_to_input with
    | some v => { cfg with inverseReturnToInputBuffer := v.toNat }
    | none => cfg
  let cfg := match c.output_formatted with
    | some v => { cfg with isOutputFormatted := v.toNat }
    | none => cfg
  let precStep : Except ConfigError VkFFTConfiguration :=
    match c.precision with
    | .Double => .ok { cfg with doublePrecision := 1 }
    | .Half => .ok { cfg with halfPrecision := 1 }
    | .HalfMemory =>
      if c.input_formatted = some false then .error .InvalidConfig
      else if c.output_formatted = some false then .error .InvalidConfig
      else .ok { cfg with halfPrecisionMemoryOnly := 1, isInputFormatted := 1, isOutputFormatted := 1 }
    | .Single => .ok cfg
  match precStep with
  | .error e => .error e
  | .ok cfg =>
    let cfg := match c.batch_count with
      | some batch_count => { cfg with numberBatches := batch_count }
      | none => cfg
    let cfg := match c.matrix_convolution with
      | some matrix_convolution => { cfg with matrixConvolution := matrix_convolution }
      | none => cfg
    .ok { res with config := cfg }

/-- BuildError enum from src/app.rs (named BuildError there; renamed here
because the config build error already carries that name). -/
inductive AppBuildError
  | NoCommandBuffer
deriving DecidableEq, Repr

/-- LaunchError enum from src/app.rs. -/
inductive LaunchError
  | ConfigSpecifiesBuffer
  | ConfigSpecifiesTempBuffer
  | ConfigSpecifiesInputBuffer
  | ConfigSpecifiesOutputBuffer
  | ConfigSpecifiesKernel
deriving DecidableEq, Repr

/-- LaunchParamsBuilder struct from src/app.rs. -/
structure LaunchParamsBuilder where
  command_buffer : Option Nat
  buffer : Option Buffer
  temp_buffer : Option Buffer
  input_buffer : Option Buffer
  output_buffer : Option Buffer
  kernel : Option Buffer
deriving DecidableEq, Repr

/-- LaunchParamsBuilder::new. -/
def LaunchParamsBuilder.new : LaunchParamsBuilder where
  buffer := none
  command_buffer := none
  input_buffer := none
  kernel := none
  output_buffer := none
  temp_buffer := none

/-- LaunchParamsBuilder::command_buffer setter. -/
def LaunchParamsBuilder.set_command_buffer (b : LaunchParamsBuilder) (v : Nat) : LaunchParamsBuilder :=
  { b with command_buffer := some v }

/-- LaunchParamsBuilder::buffer setter. -/
def LaunchParamsBuilder.set_buffer (b : LaunchParamsBuilder) (v : Buffer) : LaunchParamsBuilder :=
  { b with buffer := some v }

/-- LaunchParamsBuilder::temp_buffer setter. -/
def LaunchParamsBuilder.set_temp_buffer (b : LaunchParamsBuilder) (v : Buffer) : LaunchParamsBuilder :=
  { b with temp_buffer := some v }

/-- LaunchParamsBuilder::input_buffer setter. -/
def LaunchParamsBuilder.set_input_buffer (b : LaunchParamsBuilder) (v : Buffer) : LaunchParamsBuilder :=
  { b with input_buffer := some v }

/-- LaunchParamsBuilder::output_buffer setter. -/
def LaunchParamsBuilder.set_output_buffer (b : LaunchParamsBuilder) (v : Buffer) : LaunchParamsBuilder :=
  { b with output_buffer := some v }

/-- LaunchParamsBuilder::kernel setter. -/
def LaunchParamsBuilder.set_kernel (b : LaunchParamsBuilder) (v : Buffer) : LaunchParamsBuilder :=
  { b with kernel := some v }

/-- LaunchParams struct from src/app.rs. -/
structure LaunchParams where
  command_buffer : Nat
  buffer : Option Buffer
  temp_buffer : Option Buffer
  input_buffer : Option Buffer
  output_buffer : Option Buffer
  kernel : Option Buffer
deriving DecidableEq, Repr

/-- LaunchParamsBuilder::build from src/app.rs lines 97 to 112: the
command buffer is mandatory, everything else is optional. -/
def LaunchParamsBuilder.build (b : LaunchParamsBuilder) : Except AppBuildError LaunchParams :=
  match b.command_buffer with
  | none => .error .NoCommandBuffer
  | some command_buffer =>
  .ok {
    buffer := b.buffer
    command_buffer := command_buffer
    input_buffer := b.input_buffer
    output_buffer := b.output_buffer
    temp_buffer := b.temp_buffer
    kernel := b.kernel
  }

/-- LaunchParams::builder. -/
def LaunchParams.builder : LaunchParamsBuilder := LaunchParamsBuilder.new

/-- Model of the native VkFFTLaunchParams record: pointer fields as
booleans saying whether as_sys aimed them at the sibling copy. -/
structure VkFFTLaunchParams where
  commandBuffer : Bool := false
  buffer : Bool := false
  tempBuffer : Bool := false
  inputBuffer : Bool := false
  outputBuffer : Bool := false
  kernel : Bool := false
deriving DecidableEq, Repr

/-- LaunchParamsGuard struct from src/app.rs: the native record plus the
sibling scalar copies (raw u64 buffer handles) its pointers reference. -/
structure LaunchParamsGuard where
  params : VkFFTLaunchParams
  command_buffer : Nat
  buffer : Option Nat
  temp_buffer : Option Nat
  input_buffer : Option Nat
  output_buffer : Option Nat
  kernel : Option Nat
deriving DecidableEq, Repr

/-- LaunchParams::buffer_object: the raw handle of a buffer. -/
def LaunchParams.buffer_object (b : Buffer) : Nat := b.handle

/-- LaunchParams::as_sys from src/app.rs lines 148 to 186: copy the
command buffer handle and the raw handle of each supplied buffer into
the guard, then aim each native pointer field at the sibling copy that
is present. -/
def LaunchParams.as_sys (p : LaunchParams) : LaunchParamsGuard :=
  let res : LaunchParamsGuard := {
    params := {}
    command_buffer := p.command_buffer
    buffer := p.buffer.map LaunchParams.buffer_object
    temp_buffer := p.temp_buffer.map LaunchParams.buffer_object
    input_buffer := p.input_buffer.map LaunchParams.buffer_object
    output_buffer := p.output_buffer.map LaunchParams.buffer_object
    kernel := p.kernel.map LaunchParams.buffer_object
  }
  let params := { res.params with commandBuffer := true }
  let params := if res.buffer.isSome then { params with buffer := true } else params
  let params := if res.temp_buffer.isSome then { params with tempBuffer := true } else params
  let params := if res.input_buffer.isSome then { params with inputBuffer := true } else params
  let params := if res.output_buffer.isSome then { params with outputBuffer := true } else params
  let params := if res.kernel.isSome then { params with kernel := true } else params
  { res with params := params }

/-- Events at the C ABI boundary: the engine entry points the core
invokes, with the status code the engine reported where there is one.
The append event records the command buffer handle the launch parameters
carried and the direction flag passed (minus one forward, one inverse). -/
inductive Event
  | initCall (status : Int)
  | appendCall (command_buffer : Nat) (direction : Int) (status : Int)
  | deleteCall
deriving DecidableEq, Repr

/-- Event.isDelete recognises the deleteVkFFT event. -/
def Event.isDelete : Event → Bool
  | .deleteCall => true
  | _ => false

/-- Event.isAppend recognises the VkFFTAppend event. -/
def Event.isAppend : Event → Bool
  | .appendCall _ _ _ => true
  | _ => false

/-- Unified crate error value, as produced by the error module the crate
re-exports (the vk variant is modelled from the spec: any non-success
engine status code is translated to a typed error carrying the numeric
code). -/
inductive Error
  | appBuild (e : AppBuildError)
  | launch (e : LaunchError)
  | configBuild (e : BuildError)
  | config (e : ConfigError)
  | vk (code : Int)
deriving DecidableEq, Repr

/-- Modelled from the spec: check_error lives in the crate error module,
which is not under src; the spec says any non-success status code
returned by the engine entry points is translated to a typed error
carrying the numeric code, success being code zero. -/
def check_error (status : Int) : Except Error Unit :=
  if status = 0 then .ok () else .error (.vk status)

/-- App struct from src/app.rs: the engine per-job object (opaque, not
modelled beyond its existence) plus the pinned configuration guard that
keeps every referenced resource alive. -/
structure App where
  config : ConfigGuard
deriving DecidableEq, Repr

/-- App::new from src/app.rs lines 201 to 216, with the status code the
engine returns from initializeVkFFT as an input of the model.  When
as_sys fails no App value exists and no engine call is made.  When
as_sys succeeds the App value exists before initializeVkFFT is called,
so on an init failure the error return drops that value and its Drop
glue emits the deleteVkFFT event. -/
def App.new (config : Config) (init_status : Int) : Except Error App × List Event :=
  match config.as_sys with
  | .error e => (.error (.config e), [])
  | .ok sys_config =>
    match check_error init_status with
    | .error e => (.error e, [.initCall init_status, .deleteCall])
    | .ok _ => (.ok { config := sys_config }, [.initCall init_status])

/-- App::launch from src/app.rs lines 218 to 248, with the VkFFTAppend
status code as an input of the model: build the launch guard, run the
four role-conflict checks in source order (primary, temp, input, output;
the kernel role has no check), and only if all pass call VkFFTAppend
with direction one for inverse and minus one for forward. -/
def App.launch (a : App) (params : LaunchParams) (inverse : Bool) (append_status : Int) :
    Except Error Unit × List Event :=
  let p := params.as_sys
  if a.config.buffer.isSome && p.buffer.isSome then
    (.error (.launch .ConfigSpecifiesBuffer), [])
  else if a.config.temp_buffer.isSome && p.temp_buffer.isSome then
    (.error (.launch .ConfigSpecifiesTempBuffer), [])
  else if a.config.input_buffer.isSome && p.input_buffer.isSome then
    (.error (.launch .ConfigSpecifiesInputBuffer), [])
  else if a.config.output_buffer.isSome && p.output_buffer.isSome then
    (.error (.launch .ConfigSpecifiesOutputBuffer), [])
  else
    let direction : Int := if inverse then 1 else -1
    match check_error append_status with
    | .error e => (.error e, [.appendCall p.command_buffer direction append_status])
    | .ok _ => (.ok (), [.appendCall p.command_buffer direction append_status])

/-- App::forward. -/
def App.forward (a : App) (params : LaunchParams) (append_status : Int) :
    Except Error Unit × List Event :=
  a.launch params false append_status

/-- App::inverse. -/
def App.inverse (a : App) (params : LaunchParams) (append_status : Int) :
    Except Error Unit × List Event :=
  a.launch params true append_status

/-- One recorded use of an App between its construction and release. -/
structure LaunchInvocation where
  params : LaunchParams
  inverse : Bool
  append_status : Int
deriving DecidableEq, Repr

/-- Whole-lifetime event trace of an App: App::new, then any number of
launches, then the Drop glue from src/app.rs lines 259 to 267, which
unconditionally calls deleteVkFFT when the owning value is released (the
crate exposes no explicit destroy operation).  When new fails with an
init error its trace already ends in the delete event and no further use
is possible; when as_sys fails no App was ever constructed and no engine
call happens at all. -/
def App.lifecycleTrace (config : Config) (init_status : Int)
    (uses : List LaunchInvocation) : List Event :=
  match App.new config init_status with
  | (.error _, events) => events
  | (.ok app, events) =>
    events
      ++ (uses.map (fun u => (app.launch u.params u.inverse u.append_status).2)).flatten
      ++ [.deleteCall]

/-- FftType enum from src/context.rs. -/
inductive FftType
  | Forward
  | Inverse
deriving DecidableEq, Repr

/-- Context struct from src/context.rs, restricted to the handles the
submission and chaining protocol uses (the instance reference and the
memory allocator play no part in the modelled operations). -/
structure Context where
  physical : Nat
  device : Nat
  queue : Nat
  pool : Nat
  fence : Nat
deriving DecidableEq, Repr

/-- Device capability bits that src/context.rs lines 127 to 199 query to
pick the queue submission entry point: whether the synchronization2
feature is enabled and whether the device api version is at least
Vulkan 1.3. -/
structure DeviceCaps where
  synchronization2 : Bool
  api_version_at_least_1_3 : Bool
deriving DecidableEq, Repr

/-- The three queue-submission entry points of src/context.rs. -/
inductive SubmitVariant
  | queueSubmit2
  | queueSubmit2Khr
  | queueSubmit
deriving DecidableEq, Repr

/-- Events at the driver boundary during Context::submit: the queue
submission (with the entry point taken and the fence handle passed as
completion signal), the fence wait (with its timeout argument), and the
fence reset. -/
inductive SubmitEvent
  | submission (variant : SubmitVariant) (fence : Nat)
  | fenceWait (fence : Nat) (timeout : Option Nat)
  | fenceReset (fence : Nat)
deriving DecidableEq, Repr

/-- SubmitEvent.isSubmission recognises a queue submission event. -/
def SubmitEvent.isSubmission : SubmitEvent → Bool
  | .submission _ _ => true
  | _ => false

/-- Outcome of Context::submit: either a normal return carrying the
driver-event trace, or a process-fatal panic (the source prints the
failing result and panics; no error value is ever returned for a failed
submission). -/
inductive SubmitOutcome
  | ok (trace : List SubmitEvent)
  | panicked (trace : List SubmitEvent)
deriving DecidableEq, Repr

/-- SubmitOutcome.trace extracts the driver-event trace. -/
def SubmitOutcome.trace : SubmitOutcome → List SubmitEvent
  | .ok tr => tr
  | .panicked tr => tr

/-- Context::submit from src/context.rs lines 117 to 201, with the
status code the selected submission entry point returns as an input of
the model: when the synchronization2 feature is enabled and the api
version is at least 1.3 the queue_submit2 entry point is taken, with
synchronization2 but an older api the khr extension entry point, and
otherwise the legacy v1.0 queue_submit; in every branch the submission
passes the Context fence as completion signal, a non-success result
panics the process, and a success is followed by a fence wait with no
timeout and then a fence reset before the function returns. -/
def Context.submit (ctx : Context) (caps : DeviceCaps) (submit_status : Int) : SubmitOutcome :=
  if caps.synchronization2 then
    if caps.api_version_at_least_1_3 then
      if submit_status ≠ 0 then .panicked [.submission .queueSubmit2 ctx.fence]
      else .ok [.submission .queueSubmit2 ctx.fence,
                .fenceWait ctx.fence none, .fenceReset ctx.fence]
    else
      if submit_status ≠ 0 then .panicked [.submission .queueSubmit2Khr ctx.fence]
      else .ok [.submission .queueSubmit2Khr ctx.fence,
                .fenceWait ctx.fence none, .fenceReset ctx.fence]
  else
    if submit_status ≠ 0 then .panicked [.submission .queueSubmit ctx.fence]
    else .ok [.submission .queueSubmit ctx.fence,
              .fenceWait ctx.fence none, .fenceReset ctx.fence]

/-- Capability selection summarised as a function, for stating which of
the three entry points Context::submit takes. -/
def DeviceCaps.selected_variant (caps : DeviceCaps) : SubmitVariant :=
  if caps.synchronization2 then
    if caps.api_version_at_least_1_3 then .queueSubmit2 else .queueSubmit2Khr
  else .queueSubmit

/-- Host-visible state of the Context fence. -/
inductive FenceState
  | idle
  | pendingSubmission
  | signaled
deriving DecidableEq, Repr

/-- FenceState evolution under the driver events: a submission puts the
fence in flight, a completed wait observes it signaled, a reset returns
it to idle. -/
def FenceState.step : FenceState → SubmitEvent → FenceState
  | _, .submission _ _ => .pendingSubmission
  | _, .fenceWait _ _ => .signaled
  | _, .fenceReset _ => .idle

/-- Fence state after a trace, starting from idle. -/
def fenceAfter (tr : List SubmitEvent) : FenceState :=
  tr.foldl FenceState.step .idle

/-- Context::start_fft_chain from src/context.rs lines 202 to 236, with
the handle of the freshly begun command buffer and the engine status
codes as inputs of the model: build the launch parameters around the new
command buffer, overwrite the five context-supplied fields of the
caller's config builder with the Context handles (in source order:
physical device, device, fence, queue, command pool), build the config,
construct the App, perform the first forward or inverse invocation, and
hand back the live App, the launch parameters and the open command
buffer.  On an error after the App was constructed the App is dropped,
appending its delete event. -/
def Context.start_fft_chain (ctx : Context) (config_builder : ConfigBuilder)
    (fft_type : FftType) (new_command_buffer : Nat)
    (init_status : Int) (append_status : Int) :
    Except Error (App × LaunchParams × Nat) × List Event :=
  match (LaunchParams.builder.set_command_buffer new_command_buffer).build with
  | .error e => (.error (.appBuild e), [])
  | .ok params =>
  match ((((config_builder.set_physical_device ctx.physical).set_device
      ctx.device).set_fence ctx.fence).set_queue ctx.queue).set_command_pool ctx.pool
      |>.build with
  | .error e => (.error (.configBuild e), [])
  | .ok config =>
  match App.new config init_status with
  | (.error e, events) => (.error e, events)
  | (.ok app, events) =>
    match (match fft_type with
           | .Forward => app.forward params append_status
           | .Inverse => app.inverse params append_status) with
    | (.error e, events2) => (.error e, events ++ events2 ++ [.deleteCall])
    | (.ok _, events2) => (.ok (app, params, new_command_buffer), events ++ events2)

/-- Context::chain_fft_with_app from src/context.rs lines 237 to 248:
one more invocation against the same App and launch parameters, handing
both back. -/
def Context.chain_fft_with_app (_ctx : Context) (app : App) (params : LaunchParams)
    (fft_type : FftType) (append_status : Int) :
    Except Error (App × LaunchParams) × List Event :=
  match (match fft_type with
         | .Forward => app.forward params append_status
         | .Inverse => app.inverse params append_status) with
  | (.error e, events) => (.error e, events ++ [.deleteCall])
  | (.ok _, events) => (.ok (app, params), events)

/-- Context::chain_fft_with_config from src/context.rs lines 249 to 270,
with the engine status codes as inputs of the model: build new launch
parameters around the command buffer that was passed in, overwrite the
five context-supplied fields of the caller's config builder with the
Context handles, build the new config, construct a new App from it,
perform one forward or inverse invocation recording into the passed-in
command buffer, and return the new App, the launch parameters and the
same command buffer to the caller. -/
def Context.chain_fft_with_config (ctx : Context) (config_builder : ConfigBuilder)
    (builder : Nat) (fft_type : FftType)
    (init_status : Int) (append_status : Int) :
    Except Error (App × LaunchParams × Nat) × List Event :=
  match (LaunchParams.builder.set_command_buffer builder).build with
  | .error e => (.error (.appBuild e), [])
  | .ok params =>
  match ((((config_builder.set_physical_device ctx.physical).set_device
      ctx.device).set_fence ctx.fence).set_queue ctx.queue).set_command_pool ctx.pool
      |>.build with
  | .error e => (.error (.configBuild e), [])
  | .ok config =>
  match App.new config init_status with
  | (.error e, events) => (.error e, events)
  | (.ok app, events) =>
    match (match fft_type with
           | .Forward => app.forward params append_status
           | .Inverse => app.inverse params append_status) with
    | (.error e, events2) => (.error e, events ++ events2 ++ [.deleteCall])
    | (.ok _, events2) => (.ok (app, params, builder), events ++ events2)

/-- Outcome of Context::single_fft: a typed error from the chain step, a
process-fatal panic from the submission, or a normal return; engine
events and driver events are carried alongside. -/
inductive SingleFftOutcome
  | chainError (e : Error) (events : List Event)
  | panicked (events : List Event) (strace : List SubmitEvent)
  | ok (events : List Event) (strace : List SubmitEvent)
deriving DecidableEq, Repr

/-- Context::single_fft from src/context.rs lines 271 to 279: one
start_fft_chain call followed by one submit of the finalized command
buffer; the ephemeral App and launch parameters are dropped when the
call returns, appending the delete event on the normal path. -/
def Context.single_fft (ctx : Context) (config_builder : ConfigBuilder)
    (fft_type : FftType) (new_command_buffer : Nat)
    (init_status : Int) (append_status : Int)
    (caps : DeviceCaps) (submit_status : Int) : SingleFftOutcome :=
  match ctx.start_fft_chain config_builder fft_type new_command_buffer
      init_status append_status with
  | (.error e, events) => .chainError e events
  | (.ok _, events) =>
    match ctx.submit caps submit_status with
    | .panicked strace => .panicked events strace
    | .ok strace => .ok (events ++ [.deleteCall]) strace

/-- Buffer roles subject to the per-invocation role-conflict check in
App::launch, in the order the source checks them. -/
inductive Role
  | buffer
  | temp
  | input
  | output
deriving DecidableEq, Repr

/-- Whether the configuration guard binds the given role. -/
def ConfigGuard.role_specified (g : ConfigGuard) : Role → Bool
  | .buffer => g.buffer.isSome
  | .temp => g.temp_buffer.isSome
  | .input => g.input_buffer.isSome
  | .output => g.output_buffer.isSome

/-- Whether the launch guard supplies the given role. -/
def LaunchParamsGuard.role_specified (p : LaunchParamsGuard) : Role → Bool
  | .buffer => p.buffer.isSome
  | .temp => p.temp_buffer.isSome
  | .input => p.input_buffer.isSome
  | .output => p.output_buffer.isSome

/-- The LaunchError value naming a role. -/
def Role.conflict_error : Role → LaunchError
  | .buffer => .ConfigSpecifiesBuffer
  | .temp => .ConfigSpecifiesTempBuffer
  | .input => .ConfigSpecifiesInputBuffer
  | .output => .ConfigSpecifiesOutputBuffer

/-- A role is in conflict when both the plan configuration and the
per-invocation launch parameters bind it. -/
def roleConflict (a : App) (p : LaunchParams) (r : Role) : Bool :=
  a.config.role_specified r && (p.as_sys).role_specified r

/-- No role checked before the given one is in conflict. -/
def noEarlierConflict (a : App) (p : LaunchParams) : Role → Bool
  | .buffer => true
  | .temp => !(roleConflict a p .buffer)
  | .input => !(roleConflict a p .buffer) && !(roleConflict a p .temp)
  | .output => !(roleConflict a p .buffer) && !(roleConflict a p .temp)
      && !(roleConflict a p .input)

/-- Whether a launch result is the kernel role-conflict error. -/
def resultIsKernelConflict (r : Except Error Unit × List Event) : Bool :=
  match r.1 with
  | .error (.launch .ConfigSpecifiesKernel) => true
  | _ => false

/-- Whether an error is one of the five missing-mandatory-handle build
errors or the missing-command-buffer launch-parameter build error. -/
def Error.is_missing_context_field : Error → Bool
  | .configBuild .NoPhysicalDevice => true
  | .configBuild .NoDevice => true
  | .configBuild .NoQueue => true
  | .configBuild .NoFence => true
  | .configBuild .NoCommandPool => true
  | .appBuild .NoCommandBuffer => true
  | _ => false

/-- Whether a chain-entry-point result is a missing-context-field error. -/
def chainResultMissingContextField
    (r : Except Error (App × LaunchParams × Nat) × List Event) : Bool :=
  match r with
  | (.error e, _) => e.is_missing_context_field
  | _ => false

/-- Whether a single_fft outcome is a missing-context-field error. -/
def singleResultMissingContextField : SingleFftOutcome → Bool
  | .chainError e _ => e.is_missing_context_field
  | _ => false

/-- Direction flag VkFFTAppend receives for each FftType. -/
def FftType.direction : FftType → Int
  | .Forward => -1
  | .Inverse => 1

/-- Launch parameters carrying only a command buffer, as the Context
entry points build them. -/
def streamOnlyParams (cb : Nat) : LaunchParams where
  command_buffer := cb
  buffer := none
  temp_buffer := none
  input_buffer := none
  output_buffer := none
  kernel := none

/-- The Config a Context entry point builds from a caller-supplied
builder: the five context-supplied handles come from the Context,
everything else from the caller's builder. -/
def contextConfig (ctx : Context) (cb : ConfigBuilder) : Config where
  fft_dim := cb.fft_dim
  size := cb.size
  physical_device := ctx.physical
  device := ctx.device
  queue := ctx.queue
  fence := ctx.fence
  command_pool := ctx.pool
  normalize := cb.normalize
  zero_padding := cb.zero_padding
  zeropad_left := cb.zeropad_left
  zeropad_right := cb.zeropad_right
  kernel_convolution := cb.kernel_convolution
  r2c := cb.r2c
  dct := cb.dct
  dst := cb.dst
  coordinate_features := cb.coordinate_features
  disable_reorder_four_step := cb.disable_reorder_four_step
  buffer := cb.buffer
  batch_count := cb.batch_count
  precision := cb.precision
  convolution := cb.convolution
  use_lut := cb.use_lut
  symmetric_kernel := cb.symmetric_kernel
  input_formatted := cb.input_formatted
  output_formatted := cb.output_formatted
  kernel := cb.kernel
  temp_buffer := cb.temp_buffer
  input_buffer := cb.input_buffer
  inverse_return_to_input := cb.inverse_return_to_input
  output_buffer := cb.output_buffer
  matrix_convolution := cb.matrix_convolution

/-- Sample Context for witnesses. -/
def ctx0 : Context where
  physical := 1
  device := 2
  queue := 3
  pool := 5
  fence := 4

/-- Sample builder with all five mandatory handles set, in the order the
Context entry points set them. -/
def sampleFullBuilder : ConfigBuilder :=
  ((((ConfigBuilder.new.set_physical_device 1).set_device 2).set_fence 4).set_queue
    3).set_command_pool 5

/-- The Config sampleFullBuilder builds. -/
def sampleChainConfig : Config where
  fft_dim := 1
  size := [1, 1, 1, 0]
  physical_device := 1
  device := 2
  queue := 3
  fence := 4
  command_pool := 5
  buffer := none
  input_buffer := none
  output_buffer := none
  temp_buffer := none
  kernel := none
  normalize := false
  zero_padding := [false, false, false]
  zeropad_left := [0, 0, 0, 0]
  zeropad_right := [0, 0, 0, 0]
  kernel_convolution := false
  convolution := false
  r2c := false
  dct := none
  dst := none
  coordinate_features := 1
  disable_reorder_four_step := false
  batch_count := none
  precision := .Single
  use_lut := false
  symmetric_kernel := false
  input_formatted := none
  inverse_return_to_input := none
  output_formatted := none
  matrix_convolution := none

/-- The guard sampleChainConfig projects to. -/
def sampleChainGuard : ConfigGuard where
  keep_alive := {
    device := 2
    queue := 3
    command_pool := 5
    buffer := none
    input_buffer := none
    output_buffer := none
    temp_buffer := none
    kernel := none
  }
  config := {
    FFTdim := 1
    size := [1, 1, 1, 0]
    physicalDevice := true
    device := true
    queue := true
    commandPool := true
    fence := true
    coordinateFeatures := 1
  }
  physical_device := 1
  device := 2
  queue := 3
  command_pool := 5
  fence := 4
  buffer_size := 0
  buffer := none
  input_buffer_size := 0
  input_buffer := none
  output_buffer_size := 0
  output_buffer := none
  temp_buffer_size := 0
  temp_buffer := none
  kernel_size := 0
  kernel := none

/-- Sample config built through the dst setter. -/
def sampleDstConfig : Config := { sampleChainConfig with dct := some 2 }

/-- The guard sampleDstConfig projects to. -/
def sampleDstGuard : ConfigGuard :=
  { sampleChainGuard with
    config := { sampleChainGuard.config with performDCT := 2 } }

/-- Builds a sample guard binding the given subset of buffer roles. -/
def mkGuard (bu te inp outp ker : Option Nat) : ConfigGuard where
  keep_alive := {
    device := 2
    queue := 3
    command_pool := 5
    buffer := none
    input_buffer := none
    output_buffer := none
    temp_buffer := none
    kernel := none
  }
  config := {}
  physical_device := 1
  device := 2
  queue := 3
  command_pool := 5
  fence := 4
  buffer_size := 0
  buffer := bu
  input_buffer_size := 0
  input_buffer := inp
  output_buffer_size := 0
  output_buffer := outp
  temp_buffer_size := 0
  temp_buffer := te
  kernel_size := 0
  kernel := ker

/-- Sample plan whose configuration binds the primary and temp roles. -/
def sampleConflictApp : App := { config := mkGuard (some 10) (some 11) none none none }

/-- Sample launch parameters supplying the primary and temp roles. -/
def sampleConflictParams : LaunchParams where
  command_buffer := 9
  buffer := some { handle := 10, size := 8 }
  temp_buffer := some { handle := 11, size := 8 }
  input_buffer := none
  output_buffer := none
  kernel := none

/-- Sample plan whose configuration binds only the temp role. -/
def sampleTempConflictApp : App := { config := mkGuard none (some 11) none none none }

/-- Sample launch parameters supplying only the temp role. -/
def sampleTempParams : LaunchParams where
  command_buffer := 9
  buffer := none
  temp_buffer := some { handle := 11, size := 8 }
  input_buffer := none
  output_buffer := none
  kernel := none

/-- Sample plan whose configuration binds only the kernel role. -/
def sampleKernelApp : App := { config := mkGuard none none none none (some 7) }

/-- Sample launch parameters supplying only the kernel role. -/
def sampleKernelParams : LaunchParams where
  command_buffer := 9
  buffer := none
  temp_buffer := none
  input_buffer := none
  output_buffer := none
  kernel := some { handle := 7, size := 16 }

/-- Decidable equality for Except values, for evaluating the model. -/
instance {ε α : Type} [DecidableEq ε] [DecidableEq α] : DecidableEq (Except ε α) := fun a b =>
  match a, b with
  | .error x, .error y =>
    if h : x = y then isTrue (h ▸ rfl)
    else isFalse (fun hc => h (by injection hc))
  | .ok x, .ok y =>
    if h : x = y then isTrue (h ▸ rfl)
    else isFalse (fun hc => h (by injection hc))
  | .error _, .ok _ => isFalse (fun hc => by injection hc)
  | .ok _, .error _ => isFalse (fun hc => by injection hc)

/-- Helper: a launch trace contains no delete event. -/
theorem launch_trace_no_delete (a : App) (p : LaunchParams) (inv : Bool) (st : Int) :
    ((a.launch p inv st).2).countP Event.isDelete = 0 := by
  unfold App.launch check_error
  by_cases h1 : (a.config.buffer.isSome && (p.as_sys).buffer.isSome) = true <;>
  by_cases h2 : (a.config.temp_buffer.isSome && (p.as_sys).temp_buffer.isSome) = true <;>
  by_cases h3 : (a.config.input_buffer.isSome && (p.as_sys).input_buffer.isSome) = true <;>
  by_cases h4 : (a.config.output_buffer.isSome && (p.as_sys).output_buffer.isSome) = true <;>
  by_cases h5 : st = 0 <;>
  simp [h1, h2, h3, h4, h5, Event.isDelete, List.countP_cons, List.countP_nil]

/-- C2: for every ConfigBuilder, build checks the five mandatory handles
in the order physical device, device, queue, fence, command pool and
returns the error naming the first absent one; when all five are set the
build succeeds unconditionally, whatever buffer roles are or are not
set, moving every field across.  The build is pure: in this model the
engine entry points are events, and build emits none. -/
theorem config_build_first_missing (b : ConfigBuilder) :
    (b.physical_device = none → b.build = .error .NoPhysicalDevice) ∧
    (∀ pd, b.physical_device = some pd → b.device = none →
      b.build = .error .NoDevice) ∧
    (∀ pd d, b.physical_device = some pd → b.device = some d → b.queue = none →
      b.build = .error .NoQueue) ∧
    (∀ pd d q, b.physical_device = some pd → b.device = some d → b.queue = some q →
      b.fence = none → b.build = .error .NoFence) ∧
    (∀ pd d q f, b.physical_device = some pd → b.device = some d → b.queue = some q →
      b.fence = some f → b.command_pool = none → b.build = .error .NoCommandPool) ∧
    (∀ pd d q f cp, b.physical_device = some pd → b.device = some d → b.queue = some q →
      b.fence = some f → b.command_pool = some cp →
      b.build = .ok {
        fft_dim := b.fft_dim
        size := b.size
        physical_device := pd
        device := d
        queue := q
        fence := f
        command_pool := cp
        normalize := b.normalize
        zero_padding := b.zero_padding
        zeropad_left := b.zeropad_left
        zeropad_right := b.zeropad_right
        kernel_convolution := b.kernel_convolution
        r2c := b.r2c
        dct := b.dct
        dst := b.dst
        coordinate_features := b.coordinate_features
        disable_reorder_four_step := b.disable_reorder_four_step
        buffer := b.buffer
        batch_count := b.batch_count
        precision := b.precision
        convolution := b.convolution
        use_lut := b.use_lut
        symmetric_kernel := b.symmetric_kernel
        input_formatted := b.input_formatted
        output_formatted := b.output_formatted
        kernel := b.kernel
        temp_buffer := b.temp_buffer
        input_buffer := b.input_buffer
        inverse_return_to_input := b.inverse_return_to_input
        output_buffer := b.output_buffer
        matrix_convolution := b.matrix_convolution
      }) := by
  refine ⟨?_, ?_, ?_, ?_, ?_, ?_⟩ <;> intros <;> simp_all [ConfigBuilder.build]

/-- Witness for config_build_first_missing at concrete builders. -/
theorem config_build_first_missing_witness :
    ConfigBuilder.new.build = .error .NoPhysicalDevice ∧
    (ConfigBuilder.new.set_physical_device 1).build = .error .NoDevice ∧
    ((ConfigBuilder.new.set_physical_device 1).set_device 2).build = .error .NoQueue ∧
    (((ConfigBuilder.new.set_physical_device 1).set_device 2).set_queue 3).build
      = .error .NoFence ∧
    ((((ConfigBuilder.new.set_physical_device 1).set_device 2).set_queue 3).set_fence
      4).build = .error .NoCommandPool ∧
    sampleFullBuilder.build = .ok sampleChainConfig :=
  ⟨(config_build_first_missing _).1 rfl,
   (config_build_first_missing _).2.1 1 rfl rfl,
   (config_build_first_missing _).2.2.1 1 2 rfl rfl rfl,
   (config_build_first_missing _).2.2.2.1 1 2 3 rfl rfl rfl rfl,
   (config_build_first_missing _).2.2.2.2.1 1 2 3 4 rfl rfl rfl rfl rfl,
   (config_build_first_missing _).2.2.2.2.2 1 2 3 4 5 rfl rfl rfl rfl rfl⟩

/-- C3: for every Config with half-memory-only precision, projecting to
the native configuration fails with InvalidConfig when input_formatted
or output_formatted was explicitly set to false, and otherwise succeeds
with both native formatted flags forced to one. -/
theorem as_sys_half_memory_forces_formatted (c : Config)
    (hp : c.precision = .HalfMemory) :
    (c.input_formatted = some false → c.as_sys = .error .InvalidConfig) ∧
    (c.output_formatted = some false → c.as_sys = .error .InvalidConfig) ∧
    (decide (c.input_formatted = some false) = false →
      decide (c.output_formatted = some false) = false →
      ∃ g, c.as_sys = .ok g ∧ g.config.isInputFormatted = 1 ∧
        g.config.isOutputFormatted = 1) := by
  refine ⟨?_, ?_, ?_⟩
  · intro h
    simp [Config.as_sys, hp, h]
  · intro h
    by_cases hin : c.input_formatted = some false <;>
      simp [Config.as_sys, hp, h, hin]
  · intro h1 h2
    rw [decide_eq_false_iff_not] at h1 h2
    cases hb : c.batch_count <;> cases hm : c.matrix_convolution <;>
      simp [Config.as_sys, hp, h1, h2, hb, hm]

/-- Witness for as_sys_half_memory_forces_formatted at concrete configs. -/
theorem as_sys_half_memory_forces_formatted_witness :
    ({ sampleChainConfig with precision := .HalfMemory, input_formatted := some false } : Config).as_sys = .error .InvalidConfig ∧
    ({ sampleChainConfig with precision := .HalfMemory, output_formatted := some false } : Config).as_sys = .error .InvalidConfig ∧
    ∃ g, ({ sampleChainConfig with precision := .HalfMemory } : Config).as_sys
        = .ok g ∧ g.config.isInputFormatted = 1 ∧ g.config.isOutputFormatted = 1 :=
  ⟨(as_sys_half_memory_forces_formatted _ rfl).1 rfl,
   (as_sys_half_memory_forces_formatted _ rfl).2.1 rfl,
   (as_sys_half_memory_forces_formatted _ rfl).2.2 (by decide) (by decide)⟩

/-- C4: evaluation at the failing input.  The claim says the chainable
dst setter gives the built Config a dst field of some v with dct none,
projecting to performDST = v and performDCT = 0; the source setter at
src/config.rs lines 199 to 202 instead assigns its argument to the dct
field (contradicting the setter's own name, the dst field's doc comment
and the sibling dct setter), so calling set_dst with 2 yields dct =
some 2, dst = none, performDCT = 2 and performDST = 0. -/
theorem dst_setter_assigns_dct :
    (sampleFullBuilder.set_dst 2).dct = some 2 ∧
    (sampleFullBuilder.set_dst 2).dst = none ∧
    (sampleFullBuilder.set_dst 2).build = .ok sampleDstConfig ∧
    sampleDstConfig.dct = some 2 ∧
    sampleDstConfig.dst = none ∧
    sampleDstConfig.as_sys = .ok sampleDstGuard ∧
    sampleDstGuard.config.performDCT = 2 ∧
    sampleDstGuard.config.performDST = 0 := by
  exact ⟨rfl, rfl, by decide, rfl, rfl, by decide, rfl, rfl⟩

/-- C1 counterexample: when the configuration and the launch parameters
both bind the primary role and both bind the temp role, the claim
instance for the temp role says the call fails with the temp role's
matching error; the code instead reports the primary role's error,
because the checks run in source order and the first conflict wins. -/
theorem launch_conflict_not_always_matching :
    roleConflict sampleConflictApp sampleConflictParams .temp = true ∧
    sampleConflictApp.launch sampleConflictParams false 0
      = (.error (.launch .ConfigSpecifiesBuffer), []) ∧
    decide (LaunchError.ConfigSpecifiesBuffer = LaunchError.ConfigSpecifiesTempBuffer)
      = false := by
  decide

/-- C1 amended: for each of the four checked roles, if the plan
configuration and the launch parameters both specify it and no role
checked earlier (order: primary, temp, input, output) is also in
conflict, then forward or inverse fails with that role's matching
ConfigSpecifies error and VkFFTAppend is not called (the trace is
empty); in particular when exactly one role conflicts the error is the
matching one. -/
theorem launch_conflict_reports_first (a : App) (p : LaunchParams) (inverse : Bool)
    (st : Int) (r : Role) (hconf : roleConflict a p r = true)
    (hfirst : noEarlierConflict a p r = true) :
    a.launch p inverse st = (.error (.launch r.conflict_error), []) := by
  cases r
  case buffer =>
    simp only [roleConflict, ConfigGuard.role_specified,
      LaunchParamsGuard.role_specified, Bool.and_eq_true] at hconf
    simp [App.launch, Role.conflict_error, hconf]
  case temp =>
    simp only [roleConflict, noEarlierConflict, ConfigGuard.role_specified,
      LaunchParamsGuard.role_specified, Bool.and_eq_true] at hconf hfirst
    have hb : ¬(a.config.buffer.isSome = true ∧ (p.as_sys).buffer.isSome = true) := by
      rintro ⟨hx, hy⟩
      rw [hx, hy] at hfirst
      simp at hfirst
    simp [App.launch, Role.conflict_error, hconf, hb]
  case input =>
    simp only [roleConflict, noEarlierConflict, ConfigGuard.role_specified,
      LaunchParamsGuard.role_specified, Bool.and_eq_true] at hconf hfirst
    obtain ⟨hf1, hf2⟩ := hfirst
    have hb : ¬(a.config.buffer.isSome = true ∧ (p.as_sys).buffer.isSome = true) := by
      rintro ⟨hx, hy⟩
      rw [hx, hy] at hf1
      simp at hf1
    have ht : ¬(a.config.temp_buffer.isSome = true ∧ (p.as_sys).temp_buffer.isSome = true) := by
      rintro ⟨hx, hy⟩
      rw [hx, hy] at hf2
      simp at hf2
    simp [App.launch, Role.conflict_error, hconf, hb, ht]
  case output =>
    simp only [roleConflict, noEarlierConflict, ConfigGuard.role_specified,
      LaunchParamsGuard.role_specified, Bool.and_eq_true] at hconf hfirst
    obtain ⟨⟨hf1, hf2⟩, hf3⟩ := hfirst
    have hb : ¬(a.config.buffer.isSome = true ∧ (p.as_sys).buffer.isSome = true) := by
      rintro ⟨hx, hy⟩
      rw [hx, hy] at hf1
      simp at hf1
    have ht : ¬(a.config.temp_buffer.isSome = true ∧ (p.as_sys).temp_buffer.isSome = true) := by
      rintro ⟨hx, hy⟩
      rw [hx, hy] at hf2
      simp at hf2
    have hi : ¬(a.config.input_buffer.isSome = true ∧ (p.as_sys).input_buffer.isSome = true) := by
      rintro ⟨hx, hy⟩
      rw [hx, hy] at hf3
      simp at hf3
    simp [App.launch, Role.conflict_error, hconf, hb, ht, hi]

/-- Witness for launch_conflict_reports_first: a temp-role-only conflict
yields the temp role's matching error and no engine call. -/
theorem launch_conflict_reports_first_witness :
    sampleTempConflictApp.launch sampleTempParams false 7
      = (.error (.launch .ConfigSpecifiesTempBuffer), []) :=
  launch_conflict_reports_first sampleTempConflictApp sampleTempParams false 7 .temp
    (by decide) (by decide)

/-- C6: no operation ever returns the ConfigSpecifiesKernel error — the
kernel role is exempt from the role-conflict check — and whenever none
of the four checked roles is in conflict the launch reaches VkFFTAppend
(exactly one append event) even if both the configuration and the
launch parameters supply a kernel buffer. -/
theorem launch_kernel_exempt (a : App) (p : LaunchParams) (inverse : Bool) (st : Int) :
    resultIsKernelConflict (a.launch p inverse st) = false ∧
    (roleConflict a p .buffer = false → roleConflict a p .temp = false →
      roleConflict a p .input = false → roleConflict a p .output = false →
      ((a.launch p inverse st).2).countP Event.isAppend = 1) := by
  constructor
  · unfold App.launch check_error resultIsKernelConflict
    by_cases h1 : (a.config.buffer.isSome && (p.as_sys).buffer.isSome) = true <;>
    by_cases h2 : (a.config.temp_buffer.isSome && (p.as_sys).temp_buffer.isSome) = true <;>
    by_cases h3 : (a.config.input_buffer.isSome && (p.as_sys).input_buffer.isSome) = true <;>
    by_cases h4 : (a.config.output_buffer.isSome && (p.as_sys).output_buffer.isSome) = true <;>
    by_cases h5 : st = 0 <;>
    simp [h1, h2, h3, h4, h5]
  · intro h1 h2 h3 h4
    simp only [roleConflict, ConfigGuard.role_specified,
      LaunchParamsGuard.role_specified] at h1 h2 h3 h4
    unfold App.launch check_error
    by_cases h5 : st = 0 <;>
    simp [h1, h2, h3, h4, h5, Event.isAppend, List.countP_cons, List.countP_nil]

/-- Witness for launch_kernel_exempt: with a kernel buffer bound both at
configuration time and per invocation, and no other role conflicting,
the launch appends. -/
theorem launch_kernel_exempt_witness :
    resultIsKernelConflict (sampleKernelApp.launch sampleKernelParams false 0) = false ∧
    ((sampleKernelApp.launch sampleKernelParams false 0).2).countP Event.isAppend = 1 :=
  ⟨(launch_kernel_exempt sampleKernelApp sampleKernelParams false 0).1,
   (launch_kernel_exempt sampleKernelApp sampleKernelParams false 0).2
     (by decide) (by decide) (by decide) (by decide)⟩

/-- C7: for every App that is actually constructed (the configuration
projection succeeded), the whole-lifetime trace contains exactly one
deleteVkFFT event, whatever the initializeVkFFT status and however many
launches follow — including the path where initializeVkFFT fails inside
App::new, where the error return drops the freshly built App; teardown
is automatic on release, with no explicit destroy operation in the
model's public operations. -/
theorem app_delete_exactly_once (config : Config) (init_status : Int)
    (uses : List LaunchInvocation) (g : ConfigGuard)
    (h : config.as_sys = .ok g) :
    (App.lifecycleTrace config init_status uses).countP Event.isDelete = 1 := by
  unfold App.lifecycleTrace App.new check_error
  rw [h]
  by_cases hi : init_status = 0
  · have hflat : ∀ l : List LaunchInvocation,
        ((l.map fun u =>
          ((App.mk g).launch u.params u.inverse u.append_status).2).flatten).countP
          Event.isDelete = 0 := by
      intro l
      induction l with
      | nil => rfl
      | cons x t ih =>
        simp [List.countP_append, ih, launch_trace_no_delete]
    simp [hi, List.countP_append, hflat, Event.isDelete]
  · simp [hi, Event.isDelete]

/-- Witness for app_delete_exactly_once: a successful construction with
one launch, and (separately provable from the same theorem) an init
failure, both yield exactly one delete event. -/
theorem app_delete_exactly_once_witness :
    (App.lifecycleTrace sampleChainConfig 0
      [{ params := sampleTempParams, inverse := false, append_status := 0 }]).countP
      Event.isDelete = 1 ∧
    (App.lifecycleTrace sampleChainConfig 3 []).countP Event.isDelete = 1 :=
  ⟨app_delete_exactly_once sampleChainConfig 0 _ sampleChainGuard (by decide),
   app_delete_exactly_once sampleChainConfig 3 [] sampleChainGuard (by decide)⟩

/-- C8: whenever Context::submit returns normally, the driver trace of
the capability-selected branch is exactly one queue submission carrying
the Context's fence as completion signal, then a wait on that fence with
no timeout, then a reset of that fence — so exactly one submission was
in flight and the fence is back to idle when submit returns. -/
theorem submit_fence_protocol (ctx : Context) (caps : DeviceCaps) (s : Int)
    (tr : List SubmitEvent) (h : ctx.submit caps s = .ok tr) :
    tr = [.submission caps.selected_variant ctx.fence,
          .fenceWait ctx.fence none, .fenceReset ctx.fence] ∧
    tr.countP SubmitEvent.isSubmission = 1 ∧
    fenceAfter tr = .idle := by
  cases h1 : caps.synchronization2 <;> cases h2 : caps.api_version_at_least_1_3 <;>
    by_cases hs : s = 0 <;>
    simp [Context.submit, h1, h2, hs] at h <;>
    subst h <;>
    exact ⟨by simp [DeviceCaps.selected_variant, h1, h2], rfl, rfl⟩

/-- Witness for submit_fence_protocol at a successful submission. -/
theorem submit_fence_protocol_witness :
    ([SubmitEvent.submission .queueSubmit2 ctx0.fence,
      SubmitEvent.fenceWait ctx0.fence none, SubmitEvent.fenceReset ctx0.fence]
        : List SubmitEvent)
      = [.submission (DeviceCaps.mk true true).selected_variant ctx0.fence,
         .fenceWait ctx0.fence none, .fenceReset ctx0.fence] ∧
    ([SubmitEvent.submission .queueSubmit2 ctx0.fence,
      SubmitEvent.fenceWait ctx0.fence none, SubmitEvent.fenceReset ctx0.fence]
        : List SubmitEvent).countP SubmitEvent.isSubmission = 1 ∧
    fenceAfter [SubmitEvent.submission .queueSubmit2 ctx0.fence,
      SubmitEvent.fenceWait ctx0.fence none, SubmitEvent.fenceReset ctx0.fence] = .idle :=
  submit_fence_protocol ctx0 (DeviceCaps.mk true true) 0 _ (by decide)

/-- C9: a non-success status from the selected queue-submission entry
point makes Context::submit panic (process-fatal) with the submission
attempted exactly once and never retried, and is never surfaced as a
returned value (the outcome type has no error-return constructor, only
normal return and panic); submit returns normally only when the status
is success. -/
theorem submit_nonsuccess_panics (ctx : Context) (caps : DeviceCaps) (s : Int) :
    (∀ tr, ctx.submit caps s = .ok tr → s = 0) ∧
    (decide (s = 0) = false →
      ctx.submit caps s = .panicked [.submission caps.selected_variant ctx.fence]) ∧
    ((ctx.submit caps s).trace).countP SubmitEvent.isSubmission = 1 := by
  cases h1 : caps.synchronization2 <;> cases h2 : caps.api_version_at_least_1_3 <;>
    by_cases hs : s = 0 <;>
    simp [Context.submit, DeviceCaps.selected_variant, SubmitOutcome.trace, h1, h2, hs] <;>
    rfl

/-- Witness for submit_nonsuccess_panics at a failing status code. -/
theorem submit_nonsuccess_panics_witness :
    ctx0.submit (DeviceCaps.mk false false) 7
      = .panicked [.submission (DeviceCaps.mk false false).selected_variant ctx0.fence] ∧
    ((ctx0.submit (DeviceCaps.mk false false) 7).trace).countP
      SubmitEvent.isSubmission = 1 :=
  ⟨(submit_nonsuccess_panics ctx0 (DeviceCaps.mk false false) 7).2.1 (by decide),
   (submit_nonsuccess_panics ctx0 (DeviceCaps.mk false false) 7).2.2⟩

/-- C5 counterexample: at a concrete input the call returns the newly
constructed Plan to the caller inside the result tuple — the App built
from the new configuration is handed back alive together with the
launch parameters and the same command buffer, contradicting the claim
that the new Plan is immediately discarded and not handed back. -/
theorem chain_fft_with_config_hands_back_plan :
    ctx0.chain_fft_with_config ConfigBuilder.new 9 .Forward 0 0
      = (.ok ({ config := sampleChainGuard }, streamOnlyParams 9, 9),
         [.initCall 0, .appendCall 9 (-1) 0]) := by
  decide

/-- C5 amended: chain_fft_with_config builds a new Config from the
supplied builder (with the Context handles), constructs a new App from
it, performs exactly one forward or inverse invocation recording into
the same command buffer that was passed in, and returns the new App to
the caller in the result tuple — alive, not discarded — together with
the launch parameters and the same command buffer; only the appended
engine commands and the returned values persist. -/
theorem chain_fft_with_config_returns_new_plan (ctx : Context) (cb : ConfigBuilder)
    (sb : Nat) (ty : FftType) (g : ConfigGuard)
    (hsys : (contextConfig ctx cb).as_sys = .ok g) :
    ctx.chain_fft_with_config cb sb ty 0 0
      = (.ok ({ config := g }, streamOnlyParams sb, sb),
         [.initCall 0, .appendCall sb ty.direction 0]) := by
  unfold Context.chain_fft_with_config
  rw [show (LaunchParams.builder.set_command_buffer sb).build
      = .ok (streamOnlyParams sb) from rfl]
  rw [show (((((cb.set_physical_device ctx.physical).set_device ctx.device).set_fence
      ctx.fence).set_queue ctx.queue).set_command_pool ctx.pool).build
      = .ok (contextConfig ctx cb) from rfl]
  unfold App.new check_error
  dsimp only
  rw [hsys]
  cases ty <;>
    simp [App.forward, App.inverse, App.launch, LaunchParams.as_sys,
      streamOnlyParams, FftType.direction, check_error]

/-- Witness for chain_fft_with_config_returns_new_plan at concrete
inputs. -/
theorem chain_fft_with_config_returns_new_plan_witness :
    ctx0.chain_fft_with_config ConfigBuilder.new 11 .Inverse 0 0
      = (.ok ({ config := sampleChainGuard }, streamOnlyParams 11, 11),
         [.initCall 0, .appendCall 11 1 0]) :=
  chain_fft_with_config_returns_new_plan ctx0 ConfigBuilder.new 11 .Inverse
    sampleChainGuard (by decide)

/-- Helper: App::new never fails with a missing-context-field error. -/
theorem app_new_error_not_missing_field (cfg : Config) (ist : Int) (e : Error)
    (evs : List Event) (h : App.new cfg ist = (.error e, evs)) :
    e.is_missing_context_field = false := by
  unfold App.new check_error at h
  cases hs : cfg.as_sys with
  | error e2 =>
    rw [hs] at h
    simp at h
    obtain ⟨rfl, rfl⟩ := h
    rfl
  | ok g =>
    rw [hs] at h
    by_cases hi : ist = 0 <;> simp [hi] at h
    obtain ⟨rfl, rfl⟩ := h
    rfl

/-- Helper: App::launch never fails with a missing-context-field error. -/
theorem launch_error_not_missing_field (a : App) (p : LaunchParams) (inv : Bool)
    (st : Int) (e : Error) (evs : List Event)
    (h : a.launch p inv st = (.error e, evs)) :
    e.is_missing_context_field = false := by
  unfold App.launch check_error at h
  by_cases h1 : (a.config.buffer.isSome && (p.as_sys).buffer.isSome) = true <;>
  by_cases h2 : (a.config.temp_buffer.isSome && (p.as_sys).temp_buffer.isSome) = true <;>
  by_cases h3 : (a.config.input_buffer.isSome && (p.as_sys).input_buffer.isSome) = true <;>
  by_cases h4 : (a.config.output_buffer.isSome && (p.as_sys).output_buffer.isSome) = true <;>
  by_cases h5 : st = 0 <;>
  simp [h1, h2, h3, h4, h5] at h <;>
  (try obtain ⟨rfl, rfl⟩ := h) <;>
  rfl

/-- Helper: start_fft_chain never fails with a missing-context-field
error, because it sets all five handles and the command buffer itself. -/
theorem start_fft_chain_not_missing_field (ctx : Context) (cb : ConfigBuilder)
    (ty : FftType) (cbuf : Nat) (ist ast : Int) :
    chainResultMissingContextField (ctx.start_fft_chain cb ty cbuf ist ast) = false := by
  unfold Context.start_fft_chain
  rw [show (LaunchParams.builder.set_command_buffer cbuf).build
      = .ok (streamOnlyParams cbuf) from rfl]
  rw [show (((((cb.set_physical_device ctx.physical).set_device ctx.device).set_fence
      ctx.fence).set_queue ctx.queue).set_command_pool ctx.pool).build
      = .ok (contextConfig ctx cb) from rfl]
  dsimp only
  rcases hnew : App.new (contextConfig ctx cb) ist with ⟨res, evs⟩
  cases res with
  | error e =>
    have he := app_new_error_not_missing_field _ _ _ _ hnew
    simp [hnew, chainResultMissingContextField, he]
  | ok app =>
    cases ty with
    | Forward =>
      rcases hl : app.forward (streamOnlyParams cbuf) ast with ⟨res2, evs2⟩
      cases res2 with
      | error e2 =>
        have he := launch_error_not_missing_field _ _ _ _ _ _ hl
        simp [hnew, hl, chainResultMissingContextField, he]
      | ok u =>
        simp [hnew, hl, chainResultMissingContextField]
    | Inverse =>
      rcases hl : app.inverse (streamOnlyParams cbuf) ast with ⟨res2, evs2⟩
      cases res2 with
      | error e2 =>
        have he := launch_error_not_missing_field _ _ _ _ _ _ hl
        simp [hnew, hl, chainResultMissingContextField, he]
      | ok u =>
        simp [hnew, hl, chainResultMissingContextField]

/-- Helper: chain_fft_with_config computes the same function as
start_fft_chain with the passed-in command buffer in place of the fresh
one. -/
theorem chain_fft_with_config_eq_start (ctx : Context) (cb : ConfigBuilder)
    (b : Nat) (ty : FftType) (ist ast : Int) :
    ctx.chain_fft_with_config cb b ty ist ast = ctx.start_fft_chain cb ty b ist ast := rfl

/-- Helper: single_fft never fails with a missing-context-field error. -/
theorem single_fft_not_missing_field (ctx : Context) (cb : ConfigBuilder)
    (ty : FftType) (cbuf : Nat) (ist ast : Int) (caps : DeviceCaps) (sst : Int) :
    singleResultMissingContextField (ctx.single_fft cb ty cbuf ist ast caps sst)
      = false := by
  unfold Context.single_fft
  rcases hs2 : ctx.start_fft_chain cb ty cbuf ist ast with ⟨res, evs⟩
  have h1 := start_fft_chain_not_missing_field ctx cb ty cbuf ist ast
  rw [hs2] at h1
  cases res with
  | error e =>
    simp [chainResultMissingContextField] at h1
    simp [singleResultMissingContextField, h1]
  | ok v =>
    rcases hsub : ctx.submit caps sst with tr | tr <;>
      simp [hsub, singleResultMissingContextField]

/-- C10: the Context entry points overwrite the five context-supplied
fields of any caller-supplied builder with the Context's own handles
(so the built Config carries exactly the Context's physical device,
device, queue, fence and command pool, with every other field taken
from the caller's builder), build the launch parameters around the
command buffer they supply themselves, and consequently
start_fft_chain, chain_fft_with_config and single_fft can never fail
with any of the five missing-handle build errors or the
missing-command-buffer launch-parameter build error. -/
theorem context_entry_points_supply_handles (ctx : Context) (cb : ConfigBuilder)
    (ty : FftType) (cbuf : Nat) (ist ast : Int) (caps : DeviceCaps) (sst : Int) :
    (((((cb.set_physical_device ctx.physical).set_device ctx.device).set_fence
      ctx.fence).set_queue ctx.queue).set_command_pool ctx.pool).build
      = .ok (contextConfig ctx cb) ∧
    (contextConfig ctx cb).physical_device = ctx.physical ∧
    (contextConfig ctx cb).device = ctx.device ∧
    (contextConfig ctx cb).queue = ctx.queue ∧
    (contextConfig ctx cb).fence = ctx.fence ∧
    (contextConfig ctx cb).command_pool = ctx.pool ∧
    (LaunchParams.builder.set_command_buffer cbuf).build = .ok (streamOnlyParams cbuf) ∧
    chainResultMissingContextField (ctx.start_fft_chain cb ty cbuf ist ast) = false ∧
    chainResultMissingContextField (ctx.chain_fft_with_config cb cbuf ty ist ast) = false ∧
    singleResultMissingContextField (ctx.single_fft cb ty cbuf ist ast caps sst) = false :=
  ⟨rfl, rfl, rfl, rfl, rfl, rfl, rfl,
   start_fft_chain_not_missing_field ctx cb ty cbuf ist ast,
   by
     rw [chain_fft_with_config_eq_start]
     exact start_fft_chain_not_missing_field ctx cb ty cbuf ist ast,
   single_fft_not_missing_field ctx cb ty cbuf ist ast caps sst⟩

end VkFFT
